import Mathlib

/-!
Shallow embedding of the finance planning app (`streamlit_app2.py`) and
verification of its specification claims.

Conventions of the embedding:
- Python floats are modelled by `ℚ` where the source only uses field
  arithmetic, and by `ℝ` for the goal solver (the source uses `np.log`).
- Python's `date.today().year` is passed explicitly as `currentYear`.
- Code that can raise (`ZeroDivisionError`, an unbound local) is modelled
  with `Option`: `none` means the Python code raises at that point.
-/

/-- A savings goal as appended to `st.session_state.goals` (lines 58-63 of
the source): name, amount, monthly contribution and target year. -/
structure Goal where
  goal_name : String
  goal_amount : ℚ
  monthly_contribution : ℚ
  target_year : ℤ
deriving DecidableEq, Repr

/-- The session-scoped global inputs (lines 12-15) together with the goal
list (line 19-20). -/
structure Session where
  retirement_year : ℤ
  monthly_income : ℚ
  monthly_expenses : ℚ
  rate_of_return : ℚ
  goals : List Goal
deriving DecidableEq, Repr

/-- Lines 71-81: projection of retirement net worth ignoring goals.
`monthly_savings * ((1+r)^months - 1)/r` when the monthly rate is
positive, else `monthly_savings * months`. -/
def calculate_retirement_net_worth_without_goals (currentYear : ℤ) (s : Session) : ℚ :=
  let monthly_savings := s.monthly_income - s.monthly_expenses
  let months_to_retirement : ℤ := (s.retirement_year - currentYear) * 12
  let rate_of_return_monthly := s.rate_of_return / 100 / 12
  if 0 < rate_of_return_monthly then
    monthly_savings * ((1 + rate_of_return_monthly) ^ months_to_retirement - 1)
      / rate_of_return_monthly
  else
    monthly_savings * (months_to_retirement : ℚ)

/-- Lines 84-97: projection of retirement net worth with goals.  The loop
at lines 86-87 subtracts every goal's `monthly_contribution` from the
monthly savings once, then the same annuity formula as the no-goals
version is applied to the whole horizon. -/
def calculate_retirement_net_worth_with_goals (currentYear : ℤ) (s : Session) : ℚ :=
  let remaining_contributions :=
    s.goals.foldl (fun acc g => acc - g.monthly_contribution)
      (s.monthly_income - s.monthly_expenses)
  let months_to_retirement : ℤ := (s.retirement_year - currentYear) * 12
  let rate_of_return_monthly := s.rate_of_return / 100 / 12
  if 0 < rate_of_return_monthly then
    remaining_contributions * ((1 + rate_of_return_monthly) ^ months_to_retirement - 1)
      / rate_of_return_monthly
  else
    remaining_contributions * (months_to_retirement : ℚ)

/-- The specification's year-loop projection engine (spec section 4.2),
stated for comparison with `calculate_retirement_net_worth_with_goals`:
for each year from `currentYear` to `retirement_year` inclusive, the
available monthly cash flow excludes the contribution of every goal whose
`target_year` has not yet passed (`year <= target_year`), and the twelve
monthly contributions of that year are grown by the annuity factor. -/
def spec_projectRetirementNetWorth (currentYear : ℤ) (s : Session) : ℚ :=
  let monthlyRate := s.rate_of_return / 100 / 12
  let years : List ℤ :=
    (List.range ((s.retirement_year - currentYear).toNat + 1)).map
      (fun i => currentYear + (i : ℤ))
  (years.map (fun year =>
    let available := s.monthly_income - s.monthly_expenses -
      ((s.goals.filter (fun g => year ≤ g.target_year)).map
        (fun g => g.monthly_contribution)).sum
    if 0 < monthlyRate then
      available * ((1 + monthlyRate) ^ (12 : ℕ) - 1) / monthlyRate
    else
      available * 12)).sum

/-- Folding subtraction of each goal's contribution over the goal list
equals subtracting the list's total contribution. -/
lemma goals_foldl_sub_eq (l : List Goal) (init : ℚ) :
    l.foldl (fun acc g => acc - g.monthly_contribution) init
      = init - ((l.map (fun g => g.monthly_contribution)).sum) := by
  induction l generalizing init with
  | nil => simp
  | cons g l ih =>
    simp only [List.foldl_cons, List.map_cons, List.sum_cons]
    rw [ih]
    ring

/-- C1 (counterexample): the claimed per-year deduction boundary is false of
the code.  With current year 2025, retirement year 2027, zero rate, income
6000, expenses 4000 and a single goal contributing 1000 with target year
2025, the per-year semantics (contribution deducted only while
`year <= target_year`) would yield 60000, but the code deducts the
contribution over all 24 months of the horizon and returns 24000. -/
theorem with_goals_net_worth_differs_from_year_loop :
    calculate_retirement_net_worth_with_goals 2025
        ⟨2027, 6000, 4000, 0, [⟨"g", 100000, 1000, 2025⟩]⟩ = 24000 ∧
    spec_projectRetirementNetWorth 2025
        ⟨2027, 6000, 4000, 0, [⟨"g", 100000, 1000, 2025⟩]⟩ = 60000 ∧
    (24000 : ℚ) ≠ 60000 := by
  refine ⟨?_, ?_, by norm_num⟩
  · norm_num [calculate_retirement_net_worth_with_goals]
  · rw [spec_projectRetirementNetWorth]
    rw [show List.range ((((2027:ℤ)) - 2025).toNat + 1) = [0, 1, 2] from by rfl]
    norm_num

/-- C1 (amended): `calculate_retirement_net_worth_with_goals` deducts every
goal's `monthly_contribution` for the entire horizon regardless of its
`target_year`: the result is invariant under arbitrary reassignment of all
goals' target years, so no contribution is ever freed after a goal
completes. -/
theorem with_goals_net_worth_target_year_invariant (currentYear : ℤ) (s : Session)
    (t : Goal → ℤ) :
    calculate_retirement_net_worth_with_goals currentYear
      (Session.mk s.retirement_year s.monthly_income s.monthly_expenses s.rate_of_return
        (s.goals.map (fun g =>
          Goal.mk g.goal_name g.goal_amount g.monthly_contribution (t g))))
      = calculate_retirement_net_worth_with_goals currentYear s := by
  simp only [calculate_retirement_net_worth_with_goals, goals_foldl_sub_eq, List.map_map]
  rfl

/-- C2 (counterexample): with monthly income 6000, expenses 4000, zero
retirement rate, retirement year `currentYear + 2` (2025 to 2027) and no
goals, the code returns 48000, not the claimed 72000: the horizon is
`(retirement_year - currentYear) * 12 = 24` months, not an inclusive
three-year loop. -/
theorem concrete_zero_rate_projection_not_72000 :
    calculate_retirement_net_worth_with_goals 2025 ⟨2027, 6000, 4000, 0, []⟩ = 48000 ∧
    (48000 : ℚ) ≠ 72000 := by
  constructor
  · norm_num [calculate_retirement_net_worth_with_goals]
  · norm_num

/-- C2 (amended): at zero retirement rate the projection degenerates to
`(monthlyIncome - monthlyExpenses - total goal contributions)` multiplied
by the `(retirement_year - currentYear) * 12` months of the horizon, with
no compounding term and no per-year loop. -/
theorem with_goals_net_worth_zero_rate_formula (currentYear : ℤ) (s : Session)
    (h : s.rate_of_return = 0) :
    calculate_retirement_net_worth_with_goals currentYear s
      = (s.monthly_income - s.monthly_expenses -
          ((s.goals.map (fun g => g.monthly_contribution)).sum))
        * (((s.retirement_year - currentYear) * 12 : ℤ) : ℚ) := by
  simp only [calculate_retirement_net_worth_with_goals, goals_foldl_sub_eq, h]
  norm_num

/-- C2 (witness): the zero-rate formula applied at the claim's concrete
inputs yields 48000. -/
theorem with_goals_net_worth_zero_rate_formula_witness :
    calculate_retirement_net_worth_with_goals 2025 ⟨2027, 6000, 4000, 0, []⟩ = 48000 := by
  have h := with_goals_net_worth_zero_rate_formula 2025 ⟨2027, 6000, 4000, 0, []⟩ rfl
  norm_num at h
  exact h

/-- Lines 186-193: amount saved toward a goal by `year`.  A reached goal
(`year >= target_year`) counts as fully funded; otherwise the straight-line
accumulation `monthly_contribution * months_elapsed` is capped at the goal
amount. -/
def saved_for_goal (currentYear year : ℤ) (g : Goal) : ℚ :=
  if g.target_year ≤ year then g.goal_amount
  else min g.goal_amount (g.monthly_contribution * (((year - currentYear) * 12 : ℤ) : ℚ))

/-- Lines 186-199: a goal's snapshot entry, `(saved amount, percent saved)`.
`none` models the `ZeroDivisionError` raised at line 194 when
`goal_amount = 0` and the goal has not been reached yet. -/
def goal_snapshot (currentYear year : ℤ) (g : Goal) : Option (ℚ × ℚ) :=
  if g.target_year ≤ year then some (g.goal_amount, 100)
  else if g.goal_amount = 0 then none
  else
    some (saved_for_goal currentYear year g,
      saved_for_goal currentYear year g / g.goal_amount * 100)

/-- The full snapshot table assembled by `calculate_financial_snapshot`
(lines 181-222). -/
structure Snapshot where
  per_goal : List (String × ℚ × ℚ)
  retirement_saved : ℚ
  retirement_percent : ℚ
  monthly_income : ℚ
  monthly_expenses : ℚ
  contributions_to_goals : ℚ
  contributions_to_retirement : ℚ
deriving DecidableEq, Repr

/-- Lines 181-222: the financial snapshot for a queried year.  `none`
models a `ZeroDivisionError`: either from a goal entry (line 194) or from
the Retirement percent at line 214, which divides by
`calculate_retirement_net_worth_without_goals` with no zero guard. -/
def calculate_financial_snapshot (currentYear year : ℤ) (s : Session) : Option Snapshot :=
  (s.goals.mapM (fun g =>
      (goal_snapshot currentYear year g).map (fun p => (g.goal_name, p)))).bind
    (fun per_goal =>
      let total_goal_contributions := (s.goals.map (fun g => g.monthly_contribution)).sum
      let remaining_contributions :=
        s.monthly_income - s.monthly_expenses - total_goal_contributions
      let months_elapsed : ℤ := (year - currentYear) * 12
      let r := s.rate_of_return / 100 / 12
      let retirement_savings :=
        if 0 < r then remaining_contributions * ((1 + r) ^ months_elapsed - 1) / r
        else remaining_contributions * (months_elapsed : ℚ)
      let denom := calculate_retirement_net_worth_without_goals currentYear s
      if denom = 0 then none
      else
        some (Snapshot.mk per_goal retirement_savings (retirement_savings / denom * 100)
          s.monthly_income s.monthly_expenses total_goal_contributions
          remaining_contributions))

/-- Lines 43-68: the add-goal handler appends the goal to the session list
when the entered name is non-empty and the amount positive; otherwise the
list is left unchanged.  No uniqueness check on the name is performed. -/
def add_goal (gs : List Goal) (g : Goal) : List Goal :=
  if g.goal_name ≠ "" ∧ 0 < g.goal_amount then gs ++ [g] else gs

/-- Lines 163-167: the remove handler keeps exactly the goals whose name
differs from the selected one (when a non-empty name is selected). -/
def remove_goal (name : String) (gs : List Goal) : List Goal :=
  if name ≠ "" then gs.filter (fun g => g.goal_name ≠ name) else gs

/-- C7 (counterexample): a goal with `goal_amount = 0` that has not been
reached is not reported as 0 percent saved: the code divides
`saved_for_goal / goal_amount` with no zero guard, raising
`ZeroDivisionError` (modelled as `none`). -/
theorem goal_snapshot_zero_amount_divides_by_zero :
    goal_snapshot 2025 2025 (Goal.mk "g" 0 10 2030) = none ∧
    (none : Option (ℚ × ℚ)) ≠ some (0, 0) := by
  constructor
  · norm_num [goal_snapshot]
  · simp

/-- C7 (amended): for every goal with `goal_amount ≠ 0` (also for every
reached goal), the snapshot entry is as the claim states: a reached goal
reports `(goal_amount, 100)`, an ongoing one reports the capped
straight-line amount `min goal_amount (monthly_contribution * 12 *
(year - currentYear))` and its percentage of the goal amount. -/
theorem goal_snapshot_formula (currentYear year : ℤ) (g : Goal) (h : g.goal_amount ≠ 0) :
    goal_snapshot currentYear year g =
      if g.target_year ≤ year then some (g.goal_amount, 100)
      else
        some (min g.goal_amount (g.monthly_contribution * (((year - currentYear) * 12 : ℤ) : ℚ)),
          min g.goal_amount (g.monthly_contribution * (((year - currentYear) * 12 : ℤ) : ℚ))
            / g.goal_amount * 100) := by
  by_cases ht : g.target_year ≤ year
  · simp only [goal_snapshot, saved_for_goal, if_pos ht]
  · simp only [goal_snapshot, saved_for_goal, if_neg ht, if_neg h]

/-- C7 (witness): one year into a 1200 goal at 50 per month, the snapshot
reports 600 saved and 50 percent. -/
theorem goal_snapshot_formula_witness :
    goal_snapshot 2025 2026 (Goal.mk "car" 1200 50 2030) = some (600, 50) := by
  have h2 := goal_snapshot_formula 2025 2026 (Goal.mk "car" 1200 50 2030) (by norm_num)
  rw [h2]
  norm_num

/-- C8: for a fixed goal with non-negative monthly contribution,
`saved_for_goal` is non-decreasing in the queried year and never exceeds
the goal amount. -/
theorem saved_for_goal_monotone_capped (currentYear : ℤ) (g : Goal) (y1 y2 : ℤ)
    (hc : 0 ≤ g.monthly_contribution) (h12 : y1 ≤ y2) :
    saved_for_goal currentYear y1 g ≤ saved_for_goal currentYear y2 g ∧
    saved_for_goal currentYear y2 g ≤ g.goal_amount := by
  have cap : ∀ y : ℤ, saved_for_goal currentYear y g ≤ g.goal_amount := by
    intro y
    unfold saved_for_goal
    split
    · exact le_rfl
    · exact min_le_left _ _
  refine ⟨?_, cap y2⟩
  by_cases h2 : g.target_year ≤ y2
  · calc saved_for_goal currentYear y1 g ≤ g.goal_amount := cap y1
      _ = saved_for_goal currentYear y2 g := by rw [saved_for_goal, if_pos h2]
  · have h1 : ¬ g.target_year ≤ y1 := fun h => h2 (h.trans h12)
    rw [saved_for_goal, if_neg h1, saved_for_goal, if_neg h2]
    refine min_le_min le_rfl ?_
    have hm : ((y1 - currentYear) * 12 : ℤ) ≤ ((y2 - currentYear) * 12 : ℤ) :=
      mul_le_mul_of_nonneg_right (sub_le_sub_right h12 currentYear) (by norm_num)
    exact mul_le_mul_of_nonneg_left (by exact_mod_cast hm) hc

/-- C8 (witness): monotonicity and the cap at concrete inputs. -/
theorem saved_for_goal_monotone_capped_witness :
    saved_for_goal 2025 2026 (Goal.mk "car" 1200 50 2030)
        ≤ saved_for_goal 2025 2027 (Goal.mk "car" 1200 50 2030) ∧
    saved_for_goal 2025 2027 (Goal.mk "car" 1200 50 2030)
        ≤ (Goal.mk "car" 1200 50 2030).goal_amount :=
  saved_for_goal_monotone_capped 2025 (Goal.mk "car" 1200 50 2030) 2026 2027
    (by norm_num) (by norm_num)

/-- C9 (counterexample): the add-goal handler performs no uniqueness check
on the name: adding the goal named "house" twice yields a session whose
goal names are not pairwise distinct. -/
theorem add_goal_duplicate_names :
    ¬ ((add_goal (add_goal [] (Goal.mk "house" 100 10 2030)) (Goal.mk "house" 100 10 2030)).map
        (fun g => g.goal_name)).Nodup := by
  have hcond : (Goal.mk "house" 100 10 2030).goal_name ≠ "" ∧
      (0:ℚ) < (Goal.mk "house" 100 10 2030).goal_amount := ⟨by decide, by norm_num⟩
  simp only [add_goal, if_pos hcond]
  simp

/-- C9 (amended): names need not be unique, but the name is still usable
as a removal key: removing a non-empty name deletes every goal bearing
that name (even duplicated ones), leaving no match behind. -/
theorem remove_goal_removes_all_matches (name : String) (gs : List Goal) (h : name ≠ "") :
    (remove_goal name gs).filter (fun g => g.goal_name == name) = [] := by
  unfold remove_goal
  rw [if_pos h, List.filter_filter]
  apply List.filter_eq_nil_iff.2
  intro g _
  by_cases hg : g.goal_name = name <;> simp [hg]

/-- C9 (witness): removing "house" from a session with two goals named
"house" (as produced by the duplicate add) leaves no goal named "house". -/
theorem remove_goal_removes_all_matches_witness :
    ((remove_goal "house" [Goal.mk "house" 100 10 2030, Goal.mk "house" 50 5 2031]).filter
        (fun g => g.goal_name == "house")) = [] :=
  remove_goal_removes_all_matches "house"
    [Goal.mk "house" 100 10 2030, Goal.mk "house" 50 5 2031] (by decide)

/-- C10: whenever `monthly_income = monthly_expenses`, the no-goals
projection is 0 and the snapshot's Retirement percent divides by it, so
`calculate_financial_snapshot` fails with a division by zero (`none`) for
every queried year, as the claim states. -/
theorem snapshot_fails_when_income_eq_expenses (currentYear year : ℤ) (s : Session)
    (h : s.monthly_income = s.monthly_expenses) :
    calculate_financial_snapshot currentYear year s = none := by
  have hdenom : calculate_retirement_net_worth_without_goals currentYear s = 0 := by
    simp [calculate_retirement_net_worth_without_goals, h]
  unfold calculate_financial_snapshot
  cases (s.goals.mapM (fun g =>
      (goal_snapshot currentYear year g).map (fun p => (g.goal_name, p)))) with
  | none => rfl
  | some per_goal => simp [hdenom]

/-- C10 (witness): a concrete balanced-budget session makes the snapshot
fail for a concrete year. -/
theorem snapshot_fails_when_income_eq_expenses_witness :
    calculate_financial_snapshot 2025 2026 (Session.mk 2027 5000 5000 5 []) = none :=
  snapshot_fails_when_income_eq_expenses 2025 2026 (Session.mk 2027 5000 5000 5 []) rfl

/-- Lines 32 and 49: the monthly rate derived from an annual percentage,
`interest_rate / 100 / 12`. -/
noncomputable def monthly_rate (interest_rate : ℝ) : ℝ := interest_rate / 100 / 12

/-- Lines 29-37: the Monthly Contribution solve branch.  When the guard
`contribution_amount > 0 and goal_amount > 0` holds, the target year is
the current year plus `ceil(months/12)` months-to-goal from the
future-value-of-annuity logarithm (positive rate) or plus
`int(goal_amount / contribution_amount // 12)` (zero rate).  When the
guard fails, `target_year` is never assigned: the add-goal handler then
raises `NameError` at line 46, modelled as `none`. -/
noncomputable def monthly_contribution_branch (currentYear : ℤ)
    (goal_amount contribution_amount interest_rate : ℝ) : Option ℤ :=
  if 0 < contribution_amount ∧ 0 < goal_amount then
    if 0 < monthly_rate interest_rate then
      some (currentYear +
        ⌈Real.log (1 + goal_amount * monthly_rate interest_rate / contribution_amount)
            / Real.log (1 + monthly_rate interest_rate) / 12⌉)
    else
      some (currentYear + ⌊goal_amount / contribution_amount / 12⌋)
  else none

/-- Lines 47-53: the Target Year solve branch of the add-goal handler,
computing the required monthly contribution by amortization over
`months_to_goal = 12 * (target_year - currentYear)` months.  `none`
models the `ZeroDivisionError` raised when the denominator
(`(1+r)^months - 1`, or `months` at zero rate) is zero. -/
noncomputable def target_year_branch (currentYear target_year : ℤ)
    (goal_amount interest_rate : ℝ) : Option ℝ :=
  if 0 < monthly_rate interest_rate then
    if (1 + monthly_rate interest_rate) ^ (12 * (target_year - currentYear)) - 1 = 0 then none
    else some (goal_amount * monthly_rate interest_rate
        / ((1 + monthly_rate interest_rate) ^ (12 * (target_year - currentYear)) - 1))
  else
    if ((12 * (target_year - currentYear) : ℤ) : ℝ) = 0 then none
    else some (goal_amount / ((12 * (target_year - currentYear) : ℤ) : ℝ))

/-- Dividing an integer cast to the reals by a natural number and flooring
agrees with integer division. -/
lemma floor_intCast_div_nat (y : ℤ) (n : ℕ) : ⌊((y : ℝ)) / (n : ℝ)⌋ = y / (n : ℤ) := by
  rw [show ((y:ℤ):ℝ) / ((n:ℕ):ℝ) = (((y / n : ℚ)) : ℝ) by push_cast; ring]
  rw [Rat.floor_cast, Rat.floor_intCast_div_natCast]

/-- Flooring after dividing a real by a positive natural number agrees
with integer division of the floor. -/
lemma floor_div_nat_real (x : ℝ) (n : ℕ) (hn : 0 < n) : ⌊x / (n : ℝ)⌋ = ⌊x⌋ / (n : ℤ) := by
  rw [Int.floor_eq_iff]
  · constructor
    · rw [le_div_iff₀ (by exact_mod_cast hn)]
      calc ((⌊x⌋ / (n:ℤ) : ℤ) : ℝ) * (n:ℝ) = ((⌊x⌋ / (n:ℤ) * (n:ℤ) : ℤ) : ℝ) := by
            push_cast
            ring
        _ ≤ ((⌊x⌋ : ℤ) : ℝ) := by
            exact_mod_cast Int.ediv_mul_le ⌊x⌋ (by positivity : (0:ℤ) < (n:ℤ)).ne'
        _ ≤ x := Int.floor_le x
    · rw [div_lt_iff₀ (by exact_mod_cast hn)]
      have h1 : x < (⌊x⌋ : ℝ) + 1 := Int.lt_floor_add_one x
      have h2 : (⌊x⌋ : ℤ) + 1 ≤ (⌊x⌋ / (n:ℤ) + 1) * (n:ℤ) := by
        have := Int.lt_ediv_add_one_mul_self ⌊x⌋ (by exact_mod_cast hn : (0:ℤ) < (n:ℤ))
        omega
      calc x < (⌊x⌋ : ℝ) + 1 := h1
        _ ≤ (((⌊x⌋ / (n:ℤ) + 1) * (n:ℤ) : ℤ) : ℝ) := by exact_mod_cast h2
        _ = (((⌊x⌋ / (n:ℤ) : ℤ) : ℝ) + 1) * (n : ℝ) := by
            push_cast
            ring

/-- C3 (amended): at zero rate with positive amount and contribution, the
Monthly Contribution branch computes `months = floor(goal_amount /
contribution)` and then `target_year = currentYear + floor(months / 12)` —
a floor, not the ceiling the claim states. -/
theorem monthly_contribution_branch_zero_rate_floor (currentYear : ℤ) (A c : ℝ)
    (hA : 0 < A) (hc : 0 < c) :
    monthly_contribution_branch currentYear A c 0
      = some (currentYear + ⌊((⌊A / c⌋ : ℤ) : ℝ) / (12:ℝ)⌋) := by
  have h12 : ((12:ℕ):ℝ) = (12:ℝ) := by norm_num
  have key : ⌊A / c / (12:ℝ)⌋ = ⌊((⌊A / c⌋ : ℤ) : ℝ) / (12:ℝ)⌋ := by
    calc ⌊A / c / (12:ℝ)⌋ = ⌊A / c / ((12:ℕ):ℝ)⌋ := by rw [h12]
      _ = ⌊A / c⌋ / (12:ℤ) := floor_div_nat_real _ 12 (by norm_num)
      _ = ⌊((⌊A / c⌋ : ℤ) : ℝ) / ((12:ℕ):ℝ)⌋ := (floor_intCast_div_nat _ _).symm
      _ = ⌊((⌊A / c⌋ : ℤ) : ℝ) / (12:ℝ)⌋ := by rw [h12]
  have hr : ¬ (0 < monthly_rate 0) := by norm_num [monthly_rate]
  unfold monthly_contribution_branch
  rw [if_pos ⟨hc, hA⟩, if_neg hr, key]

/-- C3 (witness): at goal amount 12000 and contribution 1000 the branch
computes months = 12 and target year `currentYear + 1`, as the claim's
concrete scenario states. -/
theorem monthly_contribution_branch_zero_rate_floor_witness :
    monthly_contribution_branch 2025 12000 1000 0 = some 2026 := by
  have h := monthly_contribution_branch_zero_rate_floor 2025 12000 1000
    (by norm_num) (by norm_num)
  rw [h]
  norm_num

/-- C3 (counterexample): at goal amount 13000 and contribution 1000 the
code yields `currentYear + 1` (floor of 13/12), not the claimed
`currentYear + ceil(months/12) = currentYear + 2`. -/
theorem monthly_contribution_branch_zero_rate_not_ceil :
    monthly_contribution_branch 2025 13000 1000 0
      ≠ some (2025 + ⌈((⌊(13000:ℝ) / 1000⌋ : ℤ) : ℝ) / 12⌉) := by
  have h := monthly_contribution_branch_zero_rate_floor 2025 13000 1000
    (by norm_num) (by norm_num)
  have hceil : ⌈(13:ℝ) / 12⌉ = 2 := by
    rw [Int.ceil_eq_iff]
    norm_num
  rw [h]
  norm_num [hceil]

/-- C4: at `target_year = currentYear` (permitted by the input widget,
whose minimum is the current year) the Target Year branch has
`months_to_goal = 0`, so the amortization denominator `(1+r)^0 - 1` (or
`months` itself at zero rate) is zero and the code raises
`ZeroDivisionError` instead of rejecting with `InvalidTimeframe`. -/
theorem target_year_branch_division_by_zero_at_current_year :
    target_year_branch 2025 2025 12000 5 = none ∧
    target_year_branch 2025 2025 12000 0 = none := by
  constructor <;> norm_num [target_year_branch, monthly_rate]

/-- C5: with `contribution_amount = 0` (permitted by the widget) and a
positive goal amount, the guard at line 31 fails, `target_year` is never
computed and no `UnreachableGoal`-style rejection is produced: the
add-goal handler instead crashes with `NameError` at line 46 (modelled as
`none`), at any interest rate. -/
theorem monthly_contribution_branch_zero_contribution_undefined :
    monthly_contribution_branch 2025 12000 0 5 = none ∧
    monthly_contribution_branch 2025 12000 0 0 = none := by
  constructor <;> norm_num [monthly_contribution_branch]

/-- C6: solver round-trip.  Solving the Target Year branch for a monthly
contribution and re-solving the Monthly Contribution branch with that
contribution (same amount and rate) recovers the original target year
within the claimed tolerance of one year (in exact arithmetic it is
recovered exactly). -/
theorem solver_round_trip (currentYear Y : ℤ) (A rate : ℝ)
    (hA : 0 < A) (h0 : 0 ≤ rate) (h100 : rate ≤ 100) (hY : currentYear < Y) :
    ∃ c, target_year_branch currentYear Y A rate = some c ∧
      ∃ Y2, monthly_contribution_branch currentYear A c rate = some Y2 ∧ |Y2 - Y| ≤ 1 := by
  have hM : 0 < 12 * (Y - currentYear) := by omega
  have hMcast : ((12 * (Y - currentYear) : ℤ) : ℝ) / 12 = ((Y - currentYear : ℤ) : ℝ) := by
    push_cast
    ring
  rcases lt_or_eq_of_le h0 with hrate | hrate
  · have hr : 0 < monthly_rate rate := by
      unfold monthly_rate
      positivity
    have h1r : 1 < 1 + monthly_rate rate := by linarith
    have hpow : 1 < (1 + monthly_rate rate) ^ (12 * (Y - currentYear)) :=
      one_lt_zpow₀ h1r hM
    have hD : 0 < (1 + monthly_rate rate) ^ (12 * (Y - currentYear)) - 1 := by linarith
    have htb : target_year_branch currentYear Y A rate
        = some (A * monthly_rate rate
            / ((1 + monthly_rate rate) ^ (12 * (Y - currentYear)) - 1)) := by
      unfold target_year_branch
      rw [if_pos hr, if_neg hD.ne']
    refine ⟨_, htb, ?_⟩
    have hc : 0 < A * monthly_rate rate
        / ((1 + monthly_rate rate) ^ (12 * (Y - currentYear)) - 1) :=
      div_pos (mul_pos hA hr) hD
    have hAr : A * monthly_rate rate ≠ 0 := (mul_pos hA hr).ne'
    have harc : A * monthly_rate rate
        / (A * monthly_rate rate
            / ((1 + monthly_rate rate) ^ (12 * (Y - currentYear)) - 1))
        = (1 + monthly_rate rate) ^ (12 * (Y - currentYear)) - 1 := by
      field_simp
    have hlog : Real.log (1 + A * monthly_rate rate
          / (A * monthly_rate rate
              / ((1 + monthly_rate rate) ^ (12 * (Y - currentYear)) - 1)))
          / Real.log (1 + monthly_rate rate) / 12
        = ((Y - currentYear : ℤ) : ℝ) := by
      rw [harc]
      rw [show (1 : ℝ) + ((1 + monthly_rate rate) ^ (12 * (Y - currentYear)) - 1)
          = (1 + monthly_rate rate) ^ (12 * (Y - currentYear)) by ring]
      rw [Real.log_zpow, mul_div_assoc,
        div_self (Real.log_pos h1r).ne', mul_one, hMcast]
    have hmcb : monthly_contribution_branch currentYear A
        (A * monthly_rate rate
          / ((1 + monthly_rate rate) ^ (12 * (Y - currentYear)) - 1)) rate
        = some (currentYear + (Y - currentYear)) := by
      unfold monthly_contribution_branch
      rw [if_pos ⟨hc, hA⟩, if_pos hr, hlog, Int.ceil_intCast]
    exact ⟨_, hmcb, by simp⟩
  · have hr : ¬ (0 < monthly_rate rate) := by
      rw [← hrate]
      norm_num [monthly_rate]
    have hMne : ((12 * (Y - currentYear) : ℤ) : ℝ) ≠ 0 := by
      exact_mod_cast hM.ne'
    have htb : target_year_branch currentYear Y A rate
        = some (A / ((12 * (Y - currentYear) : ℤ) : ℝ)) := by
      unfold target_year_branch
      rw [if_neg hr, if_neg hMne]
    refine ⟨_, htb, ?_⟩
    have hMpos : (0:ℝ) < ((12 * (Y - currentYear) : ℤ) : ℝ) := by exact_mod_cast hM
    have hc : 0 < A / ((12 * (Y - currentYear) : ℤ) : ℝ) := div_pos hA hMpos
    have hdiv : A / (A / ((12 * (Y - currentYear) : ℤ) : ℝ)) / 12
        = ((Y - currentYear : ℤ) : ℝ) := by
      have hsimp : A / (A / ((12 * (Y - currentYear) : ℤ) : ℝ))
          = ((12 * (Y - currentYear) : ℤ) : ℝ) := by
        field_simp
      rw [hsimp, hMcast]
    have hmcb : monthly_contribution_branch currentYear A
        (A / ((12 * (Y - currentYear) : ℤ) : ℝ)) rate
        = some (currentYear + (Y - currentYear)) := by
      unfold monthly_contribution_branch
      rw [if_pos ⟨hc, hA⟩, if_neg hr, hdiv, Int.floor_intCast]
    exact ⟨_, hmcb, by simp⟩

/-- C6 (witness): the round trip at amount 12000, annual rate 12 percent
and target year one year out. -/
theorem solver_round_trip_witness :
    ∃ c, target_year_branch 2025 2026 12000 12 = some c ∧
      ∃ Y2, monthly_contribution_branch 2025 12000 c 12 = some Y2 ∧ |Y2 - 2026| ≤ 1 :=
  solver_round_trip 2025 2026 12000 12 (by norm_num) (by norm_num) (by norm_num)
    (by norm_num)
